import Mathlib

/-!
Shallow embedding of `scripts/generate_post.py`.

Python strings are modelled as lists of characters (`PyStr`); the character
classification and case-mapping functions model Python's `str` methods on the
ASCII range, which is the range the script's constants and normalization
logic operate on.  Machine effects (environment reads, HTTP calls, file
writes, printing) are modelled by explicit parameters (`Env`, `World`) and an
explicit event trace.  Fallible Python code is modelled with `Except PyErr`.
-/

/-- Python strings, modelled as lists of characters. -/
abbrev PyStr := List Char

/-- ASCII model of the whitespace set stripped by Python `str.strip` /
`str.lstrip`: space (32), tab (9), newline (10), vertical tab (11),
form feed (12), carriage return (13). -/
def pyIsSpace (c : Char) : Bool :=
  decide (c.toNat = 32 ∨ (9 ≤ c.toNat ∧ c.toNat ≤ 13))

/-- ASCII model of Python `str.lower` on one character: uppercase ASCII
letters (codepoints 65-90) map 32 codepoints up; everything else is fixed. -/
def pyLowerChar (c : Char) : Char :=
  if 65 ≤ c.toNat ∧ c.toNat ≤ 90 then Char.ofNat (c.toNat + 32) else c

/-- ASCII model of Python `str.lower` on a string. -/
def pyLower (s : PyStr) : PyStr := s.map pyLowerChar

/-- ASCII model of Python `str.isalnum` on one character: digit, uppercase
letter or lowercase letter. -/
def pyIsAlnum (c : Char) : Bool :=
  decide ((48 ≤ c.toNat ∧ c.toNat ≤ 57) ∨ (65 ≤ c.toNat ∧ c.toNat ≤ 90) ∨
          (97 ≤ c.toNat ∧ c.toNat ≤ 122))

/-- Python `str.lstrip()` (no argument): drop leading whitespace. -/
def pyLstrip (s : PyStr) : PyStr := s.dropWhile pyIsSpace

/-- Python `str.strip(chars)` generalized over a character predicate:
drop matching characters from both ends. -/
def pyStripWith (p : Char → Bool) (s : PyStr) : PyStr :=
  ((s.dropWhile p).reverse.dropWhile p).reverse

/-- Python `str.strip()` (no argument): strip whitespace from both ends. -/
def pyStrip (s : PyStr) : PyStr := pyStripWith pyIsSpace s

/-- Python `str.splitlines` (ASCII model: line breaks are \n, \r and \r\n). -/
def splitlines : PyStr → List PyStr
  | [] => []
  | '\r' :: '\n' :: rest => [] :: splitlines rest
  | '\r' :: rest => [] :: splitlines rest
  | '\n' :: rest => [] :: splitlines rest
  | c :: rest =>
    match splitlines rest with
    | [] => [[c]]
    | l :: ls => (c :: l) :: ls

/-- Python substring membership `needle in haystack` for strings. -/
def isSubstring (needle : PyStr) : PyStr → Bool
  | [] => needle.isEmpty
  | c :: rest => needle.isPrefixOf (c :: rest) || isSubstring needle rest

/-- JSON values as decoded by `resp.json()` in the script (numbers are
modelled by integers; the script never does arithmetic on them). -/
inductive Json where
  | null : Json
  | bool (b : Bool) : Json
  | num (n : Int) : Json
  | str (s : PyStr) : Json
  | arr (xs : List Json) : Json
  | obj (fields : List (PyStr × Json)) : Json

mutual

/-- Python `repr` of a decoded JSON value (simplified model: strings render
between single quotes without Python's escaping/quote-selection rules; none
of the verified properties depend on the exact rendering). -/
def pyRepr : Json → PyStr
  | .null => "None".data
  | .bool true => "True".data
  | .bool false => "False".data
  | .num n => (toString n).data
  | .str s => '\'' :: (s ++ ['\''])
  | .arr xs => '[' :: (pyReprList xs ++ [']'])
  | .obj fs => '\x7b' :: (pyReprFields fs ++ ['\x7d'])

/-- Comma-separated reprs of list elements. -/
def pyReprList : List Json → PyStr
  | [] => []
  | [x] => pyRepr x
  | x :: y :: rest => pyRepr x ++ (", ".data ++ pyReprList (y :: rest))

/-- Comma-separated reprs of dict entries. -/
def pyReprFields : List (PyStr × Json) → PyStr
  | [] => []
  | [(k, v)] => '\'' :: (k ++ ('\'' :: (": ".data ++ pyRepr v)))
  | (k, v) :: x :: rest =>
      '\'' :: (k ++ ('\'' :: (": ".data ++ pyRepr v ++ (", ".data ++ pyReprFields (x :: rest)))))

end

/-- Python `str(x)` on a decoded JSON value: a string renders as itself,
anything else as its repr. -/
def pyStrTop (v : Json) : PyStr :=
  match v with
  | .str s => s
  | v => pyRepr v

/-- Dict lookup on the decoded JSON object (keys of a decoded dict are
unique, so first match is the dict entry). -/
def assocGet (fs : List (PyStr × Json)) (k : PyStr) : Option Json :=
  (fs.find? (fun kv => kv.1 == k)).map (fun kv => kv.2)

/-- Python equality between a decoded JSON value and a string: only a string
with the same characters compares equal. -/
def jsonEqStr (v : Json) (s : PyStr) : Bool :=
  match v with
  | .str t => t == s
  | _ => false

/-- Errors the script can raise (RuntimeError carries the message it is
constructed with; the others model Python's built-in exception kinds). -/
inductive PyErr where
  | runtimeError (msg : PyStr) : PyErr
  | httpStatusError : PyErr
  | indexError : PyErr
  | typeError : PyErr
  | keyError : PyErr
  | attributeError : PyErr
deriving DecidableEq

/-- Python membership `needle in v` for a decoded JSON value `v`: key test
on a dict, substring test on a string, element test on a list, and a
`TypeError` on any non-container value. -/
def pyIn (needle : PyStr) (v : Json) : Except PyErr Bool :=
  match v with
  | .obj fs => .ok (fs.any (fun kv => kv.1 == needle))
  | .str s => .ok (isSubstring needle s)
  | .arr xs => .ok (xs.any (fun x => jsonEqStr x needle))
  | _ => .error .typeError

/-- The field name probed by the Hugging Face response handler. -/
def gtKey : PyStr := "generated_text".data

/-- The response-body resolution performed by `gen_with_hf` after
`resp.raise_for_status()` and `resp.json()`, transcribed from the source:

  if isinstance(data, dict) and "error" in data: raise RuntimeError(...)
  if isinstance(data, list) and "generated_text" in data[0]: return data[0]["generated_text"]
  if isinstance(data, list) and isinstance(data[0], dict): return data[0].get("generated_text", str(data[0]))
  return str(data)

with Python's exception behaviour made explicit: `data[0]` on an empty list
raises `IndexError`; `in` on a non-container first element raises
`TypeError`; subscripting a string or list with a string raises `TypeError`;
string concatenation with a non-string error value raises `TypeError`. -/
def parse_hf (data : Json) : Except PyErr Json :=
  match data with
  | .obj fs =>
      if fs.any (fun kv => kv.1 == "error".data) then
        match assocGet fs ("error".data) with
        | some (.str s) => .error (.runtimeError ("HF error: ".data ++ s))
        | some _ => .error .typeError
        | none => .error .keyError
      else .ok (.str (pyStrTop (Json.obj fs)))
  | .arr [] => .error .indexError
  | .arr (h :: t) =>
      match pyIn gtKey h with
      | .error e => .error e
      | .ok true =>
          match h with
          | .obj fs =>
              match assocGet fs gtKey with
              | some v => .ok v
              | none => .error .keyError
          | _ => .error .typeError
      | .ok false =>
          match h with
          | .obj fs => .ok ((assocGet fs gtKey).getD (.str (pyStrTop h)))
          | _ => .ok (.str (pyStrTop (Json.arr (h :: t))))
  | d => .ok (.str (pyStrTop d))

/-- The resolution chain exactly as claim C1 states it: dict with an
"error" key raises; else a list whose first element has a `generated_text`
field returns that field; else a list whose first element is a dict returns
its `generated_text` field or its string representation; any other shape,
including an empty list, returns the string representation of the body. -/
def claimResolve (data : Json) : Except PyErr Json :=
  match data with
  | .obj fs =>
      if fs.any (fun kv => kv.1 == "error".data) then
        match assocGet fs ("error".data) with
        | some (.str s) => .error (.runtimeError ("HF error: ".data ++ s))
        | some _ => .error .typeError
        | none => .error .keyError
      else .ok (.str (pyStrTop (Json.obj fs)))
  | .arr (Json.obj fs :: _) =>
      match assocGet fs gtKey with
      | some v => .ok v
      | none => .ok (.str (pyStrTop (Json.obj fs)))
  | d => .ok (.str (pyStrTop d))

/-- The resolution chain as amended to match the code: as claim C1, except
that an empty list raises an index error; a first element that is null, a
boolean or a number raises a type error; and a first element that is a
string containing `generated_text` as a substring, or a list containing the
string `generated_text` as an element, raises a type error (otherwise such a
first element falls through to the string representation of the body). -/
def amendedResolve (data : Json) : Except PyErr Json :=
  match data with
  | .obj fs =>
      if fs.any (fun kv => kv.1 == "error".data) then
        match assocGet fs ("error".data) with
        | some (.str s) => .error (.runtimeError ("HF error: ".data ++ s))
        | some _ => .error .typeError
        | none => .error .keyError
      else .ok (.str (pyStrTop (Json.obj fs)))
  | .arr [] => .error .indexError
  | .arr (Json.obj fs :: _t) =>
      match assocGet fs gtKey with
      | some v => .ok v
      | none => .ok (.str (pyStrTop (Json.obj fs)))
  | .arr (Json.str s :: t) =>
      if isSubstring gtKey s then .error .typeError
      else .ok (.str (pyStrTop (Json.arr (Json.str s :: t))))
  | .arr (Json.arr xs :: t) =>
      if xs.any (fun x => jsonEqStr x gtKey) then .error .typeError
      else .ok (.str (pyStrTop (Json.arr (Json.arr xs :: t))))
  | .arr (_h :: _t) => .error .typeError
  | d => .ok (.str (pyStrTop d))

/-- Fixed prefix of the prompt template, up to the interpolated niche
(transcribed from the f-string in `build_prompt`). -/
def promptPre : PyStr :=
  "\nYou are an assistant that writes a clear, helpful 450-700 word blog post for humans.\nNiche: ".data

/-- Fixed suffix of the prompt template, after the interpolated niche
(transcribed from the f-string in `build_prompt`). -/
def promptPost : PyStr :=
  "\nOutput format:\nYAML frontmatter with title and date, then markdown body.\nInclude an H1 title, short intro, 3 subheadings (H2), one short conclusion, and one simple call-to-action line at the end that links to https://example.com/affiliate (placeholder).\nBe concise, avoid made-up facts, and keep it practical.\n".data

/-- build_prompt: the f-string template with the niche interpolated. -/
def build_prompt (niche : PyStr) : PyStr := promptPre ++ niche ++ promptPost

/-- Predicate of the title-scanning loop: `line.strip().startswith("#")`. -/
def isHeadingLine (line : PyStr) : Bool := ("#".data).isPrefixOf (pyStrip line)

/-- Transformation applied to the found heading line:
`line.strip().lstrip("# ").strip()`. -/
def stripHeadingMarker (line : PyStr) : PyStr :=
  pyStrip ((pyStrip line).dropWhile (fun c => c == '#' || c == ' '))

/-- parse_title_from_output: return the transform of the first line whose
stripped form starts with "#", else the fixed fallback title. -/
def parse_title_from_output (text : PyStr) : PyStr :=
  match (splitlines text).find? isHeadingLine with
  | some line => stripHeadingMarker line
  | none => "Auto Generated Post".data

/-- Character mapping of the slug comprehension:
`c if c.isalnum() else "-"`. -/
def slugMapChar (c : Char) : Char := if pyIsAlnum c then c else '-'

/-- The stripped character set of `strip("-")`. -/
def isDashChar (c : Char) : Bool := c == '-'

/-- The slug computed in save_markdown:
`"".join(c if c.isalnum() else "-" for c in title.lower())[:60].strip("-")`. -/
def slugOf (title : PyStr) : PyStr :=
  pyStripWith isDashChar (((pyLower title).map slugMapChar).take 60)

/-- The minimal frontmatter block synthesized in `main`:
`f"---\ntitle: \"{title}\"\ndate: {date}\n---\n\n"`. -/
def frontmatterFor (today title : PyStr) : PyStr :=
  "---\ntitle: \"".data ++ title ++ "\"\ndate: ".data ++ today ++ "\n---\n\n".data

/-- The frontmatter normalization step of `main`:
`if not out.lstrip().startswith("---"): out = front + out`. -/
def normalizeOut (today title out : PyStr) : PyStr :=
  if (("---".data).isPrefixOf (pyLstrip out)) = false then frontmatterFor today title ++ out
  else out

/-- The full normalizer: the frontmatter step with the title extracted from
the generated text, as `main` performs it. -/
def normalizePost (today out : PyStr) : PyStr :=
  normalizeOut today (parse_title_from_output out) out

/-- Process environment: a finite map from variable names to values. -/
abbrev Env := List (PyStr × PyStr)

/-- os.environ.get(k) / os.getenv(k): None when the variable is unset. -/
def envGet (e : Env) (k : PyStr) : Option PyStr :=
  (e.find? (fun kv => kv.1 == k)).map (fun kv => kv.2)

/-- The chat request sent by `gen_with_openai` (temperature is the literal
0.7, modelled as the rational 7/10; no arithmetic is done on it). -/
structure ChatRequest where
  model : PyStr
  messages : List (PyStr × PyStr)
  temperature : ℚ
  max_tokens : Nat
deriving DecidableEq

/-- The inference request posted by `gen_with_hf`. -/
structure HfRequest where
  url : PyStr
  inputs : PyStr
  wait_for_model : Bool
  max_new_tokens : Nat
  timeout : Nat
deriving DecidableEq

/-- Observable side effects of one run, in order. -/
inductive Event where
  | printLine (s : PyStr) : Event
  | netModelList : Event
  | netChatCreate (req : ChatRequest) : Event
  | netHfPost (req : HfRequest) : Event
  | mkdir (dir : PyStr) : Event
  | fileWrite (path : PyStr) (content : PyStr) : Event
deriving DecidableEq

/-- Network events (requests issued to either provider). -/
def isNetEvent : Event → Bool
  | .netModelList => true
  | .netChatCreate _ => true
  | .netHfPost _ => true
  | _ => false

/-- File-writing events. -/
def isFileWriteEvent : Event → Bool
  | .fileWrite _ _ => true
  | _ => false

/-- External world: what the providers and the clock answer with during one
run.  `catalog` is the list of model identifiers in `openai.Model.list()`,
`chatChoices` the message contents of the chat response's choices,
`hfStatus` the HTTP status of the Hugging Face POST, `hfBody` its decoded
JSON body, and `today` the ISO date `datetime.date.today().isoformat()`. -/
structure World where
  catalog : List PyStr
  chatChoices : List PyStr
  hfStatus : Nat
  hfBody : Json
  today : PyStr

/-- Model chosen by `gen_with_openai`:
`"gpt-4o-mini" if "gpt-4o-mini" in openai.Model.list().data else "gpt-4o"`. -/
def requestModelOf (w : World) : PyStr :=
  if w.catalog.contains ("gpt-4o-mini".data) then "gpt-4o-mini".data else "gpt-4o".data

/-- gen_with_openai: check the credential, then list models, send one chat
request, and return the stripped content of the first choice.  The returned
event list is the network trace of the call. -/
def gen_with_openai (w : World) (e : Env) (prompt : PyStr) :
    Except PyErr PyStr × List Event :=
  let key := (envGet e ("OPENAI_API_KEY".data)).getD []
  if key.isEmpty then (.error (.runtimeError ("OPENAI_API_KEY not set".data)), [])
  else
    let req : ChatRequest :=
      ⟨requestModelOf w, [("user".data, prompt)], 7 / 10, 800⟩
    match w.chatChoices with
    | [] => (.error .indexError, [.netModelList, .netChatCreate req])
    | c :: _ => (.ok (pyStrip c), [.netModelList, .netChatCreate req])

/-- gen_with_hf: check the token, POST to the fixed model endpoint with a
60 second timeout, raise on a non-success status, then resolve the JSON
body with `parse_hf`. -/
def gen_with_hf (w : World) (e : Env) (prompt : PyStr) :
    Except PyErr Json × List Event :=
  let token := (envGet e ("HF_INFERENCE_API_TOKEN".data)).getD []
  if token.isEmpty then (.error (.runtimeError ("HF_INFERENCE_API_TOKEN not set".data)), [])
  else
    let req : HfRequest :=
      ⟨"https://api-inference.huggingface.co/models/gpt2".data, prompt, true, 400, 60⟩
    if 400 ≤ w.hfStatus then (.error .httpStatusError, [.netHfPost req])
    else (parse_hf w.hfBody, [.netHfPost req])

/-- The two providers. -/
inductive Provider where
  | A : Provider
  | B : Provider
deriving DecidableEq

/-- The module-level flag:
`os.getenv("USE_OPENAI", "true").lower() in ("1", "true", "yes")`. -/
def use_openai (e : Env) : Bool :=
  [("1".data : PyStr), "true".data, "yes".data].contains
    (pyLower ((envGet e ("USE_OPENAI".data)).getD ("true".data)))

/-- Provider chosen by the driver's `if USE_OPENAI` branch. -/
def chosenProvider (e : Env) : Provider :=
  if use_openai e then .A else .B

/-- The niche read by `main`: `os.getenv("NICHE", "budget camping gear for
beginners")`. -/
def nicheOf (e : Env) : PyStr :=
  (envGet e ("NICHE".data)).getD ("budget camping gear for beginners".data)

/-- Coercion of the Hugging Face generator's return value to the string the
rest of `main` operates on: Python would raise `AttributeError` at
`out.lstrip()` if the resolved value is not a string. -/
def asPyStr : Except PyErr Json → Except PyErr PyStr
  | .ok (.str s) => .ok s
  | .ok _ => .error .attributeError
  | .error e => .error e

/-- save_markdown: compute the dated, slugged path under the output
directory, create the directory and write the content; returns the path and
the filesystem trace. -/
def save_markdown (today title content out_dir : PyStr) : PyStr × List Event :=
  let filename := today ++ "-".data ++ slugOf title ++ ".md".data
  let path := out_dir ++ "/".data ++ filename
  (path, [.mkdir out_dir, .fileWrite path content])

/-- The script's `main` (named `mainRun` here since `main` is reserved):
read the niche, build the prompt, call exactly one generator,
normalize the output and write it.  Returns the outcome (the saved path on
success, the propagated error otherwise) and the ordered event trace. -/
def mainRun (w : World) (e : Env) : Except PyErr PyStr × List Event :=
  let niche := nicheOf e
  let prompt := build_prompt niche
  let p0 := Event.printLine ("Generating post for niche: ".data ++ niche)
  let genStep :=
    match chosenProvider e with
    | .A => gen_with_openai w e prompt
    | .B =>
      let r := gen_with_hf w e prompt
      (asPyStr r.1, r.2)
  match genStep with
  | (.error err, evs) => (.error err, p0 :: evs)
  | (.ok out, evs) =>
    let title := parse_title_from_output out
    let out2 := normalizeOut w.today title out
    let sv := save_markdown w.today title out2 ("posts".data)
    (.ok sv.1, p0 :: (evs ++ sv.2 ++ [Event.printLine ("Saved: ".data ++ sv.1)]))

/-- Characters claim C3 permits in a slug: lowercase ASCII letter, ASCII
digit, or hyphen. -/
def isSlugChar (c : Char) : Bool :=
  decide ((97 ≤ c.toNat ∧ c.toNat ≤ 122) ∨ (48 ≤ c.toNat ∧ c.toNat ≤ 57)) || (c == '-')

/-- The head of a dropWhile result never satisfies the dropped predicate. -/
theorem head_dropWhile_not (p : Char → Bool) (l : PyStr) (c : Char)
    (h : (l.dropWhile p).head? = some c) : p c = false := by
  induction l with
  | nil => simp [List.dropWhile] at h
  | cons a t ih =>
    cases hpa : p a with
    | true =>
      rw [List.dropWhile_cons] at h
      simp [hpa] at h
      exact ih h
    | false =>
      rw [List.dropWhile_cons] at h
      simp [hpa] at h
      rw [← h]
      exact hpa

/-- The first character surviving a two-sided strip does not satisfy the
stripped predicate. -/
theorem stripWith_head_not (p : Char → Bool) (l : PyStr) (c : Char)
    (h : (pyStripWith p l).head? = some c) : p c = false := by
  unfold pyStripWith at h
  rw [List.head?_reverse] at h
  obtain ⟨u, hu⟩ := List.dropWhile_suffix (l := (l.dropWhile p).reverse) p
  have hW : ((l.dropWhile p).reverse.getLast?) = some c := by
    rw [← hu, List.getLast?_append, h]
    rfl
  rw [List.getLast?_reverse] at hW
  exact head_dropWhile_not p l c hW

/-- The last character surviving a two-sided strip does not satisfy the
stripped predicate. -/
theorem stripWith_last_not (p : Char → Bool) (l : PyStr) (c : Char)
    (h : (pyStripWith p l).getLast? = some c) : p c = false := by
  unfold pyStripWith at h
  rw [List.getLast?_reverse] at h
  exact head_dropWhile_not p (l.dropWhile p).reverse c h

/-- A two-sided strip only removes characters. -/
theorem stripWith_subset (p : Char → Bool) (l : PyStr) : pyStripWith p l ⊆ l := by
  intro c hc
  unfold pyStripWith at hc
  rw [List.mem_reverse] at hc
  have h1 := (List.dropWhile_suffix (l := (l.dropWhile p).reverse) p).subset hc
  rw [List.mem_reverse] at h1
  exact (List.dropWhile_suffix p).subset h1

/-- A two-sided strip never lengthens the string. -/
theorem stripWith_length_le (p : Char → Bool) (l : PyStr) :
    (pyStripWith p l).length ≤ l.length := by
  unfold pyStripWith
  rw [List.length_reverse]
  calc ((l.dropWhile p).reverse.dropWhile p).length
      ≤ (l.dropWhile p).reverse.length :=
        (List.dropWhile_suffix p).sublist.length_le
    _ = (l.dropWhile p).length := List.length_reverse _
    _ ≤ l.length := (List.dropWhile_suffix p).sublist.length_le

/-- Lowercasing an uppercase ASCII letter moves its codepoint up by 32. -/
theorem toNat_pyLowerChar_upper (c : Char) (h1 : 65 ≤ c.toNat) (h2 : c.toNat ≤ 90) :
    (pyLowerChar c).toNat = c.toNat + 32 := by
  unfold pyLowerChar
  rw [if_pos ⟨h1, h2⟩]
  generalize c.toNat = n at h1 h2 ⊢
  interval_cases n <;> decide

/-- Every character produced by the slug comprehension over a lowercased
character is a lowercase letter, a digit or a hyphen. -/
theorem slugMapChar_lower_ok (c : Char) : isSlugChar (slugMapChar (pyLowerChar c)) = true := by
  by_cases hu : 65 ≤ c.toNat ∧ c.toNat ≤ 90
  · have ht : (pyLowerChar c).toNat = c.toNat + 32 := toNat_pyLowerChar_upper c hu.1 hu.2
    have halnum : pyIsAlnum (pyLowerChar c) = true := by
      simp only [pyIsAlnum, decide_eq_true_eq]
      rw [ht]
      omega
    unfold slugMapChar
    rw [if_pos halnum]
    simp only [isSlugChar, Bool.or_eq_true, decide_eq_true_eq]
    left
    rw [ht]
    omega
  · have hl : pyLowerChar c = c := by
      unfold pyLowerChar
      rw [if_neg hu]
    rw [hl]
    unfold slugMapChar
    by_cases ha : pyIsAlnum c = true
    · rw [if_pos ha]
      simp only [pyIsAlnum, decide_eq_true_eq] at ha
      simp only [isSlugChar, Bool.or_eq_true, decide_eq_true_eq]
      left
      omega
    · rw [if_neg ha]
      decide

/-- C9: for every niche string, the prompt builder's output is the fixed
template with the niche interpolated, so it contains the niche as a literal
substring and depends on nothing but the niche argument. -/
theorem build_prompt_contains_niche (niche : PyStr) :
    build_prompt niche = promptPre ++ niche ++ promptPost ∧
    niche <:+: build_prompt niche :=
  ⟨rfl, ⟨promptPre, promptPost, rfl⟩⟩

/-- C8: the frontmatter guarantee is idempotent on already-prefixed input:
generated text starting with "---" is returned unchanged by the
normalizer. -/
theorem normalize_pass_through (today out : PyStr)
    (h : ("---".data).isPrefixOf out = true) : normalizePost today out = out := by
  obtain ⟨t, ht⟩ := List.isPrefixOf_iff_prefix.mp h
  subst ht
  unfold normalizePost normalizeOut
  rw [show pyLstrip ("---".data ++ t) = "---".data ++ t from rfl]
  rw [List.isPrefixOf_iff_prefix.mpr (List.prefix_append ("---".data) t)]
  simp

/-- C8 witness at a concrete already-prefixed input. -/
theorem normalize_pass_through_witness :
    normalizePost ("2026-10-12".data) ("---\ntitle: x\n---\nbody".data) =
      ("---\ntitle: x\n---\nbody".data) :=
  normalize_pass_through ("2026-10-12".data) ("---\ntitle: x\n---\nbody".data) (by decide)

/-- Unfolding the frontmatter block in front of a text exposes its three
leading hyphens. -/
theorem frontmatter_append_head (today title l : PyStr) :
    frontmatterFor today title ++ l =
      '-' :: '-' :: '-' ::
        (("\ntitle: \"".data ++ title ++ "\"\ndate: ".data ++ today ++ "\n---\n\n".data) ++ l) :=
  rfl

/-- C2 counterexample: generated text consisting of a newline followed by a
frontmatter block is passed through unchanged by the normalizer, so the
written Post does not begin with the delimiter. -/
theorem normalize_leading_ws_cex :
    normalizePost ("2026-10-12".data) ("\n---\ntitle: x\n---\nbody".data) =
      ("\n---\ntitle: x\n---\nbody".data) ∧
    ("---".data).isPrefixOf
      (normalizePost ("2026-10-12".data) ("\n---\ntitle: x\n---\nbody".data)) = false := by
  constructor
  · decide
  · decide

/-- The normalizer takes exactly one of two branches: pass-through when the
stripped text already starts with the delimiter, otherwise prepending the
synthesized block. -/
theorem normalize_branches (today out : PyStr) :
    (("---".data).isPrefixOf (pyLstrip out) = true ∧ normalizePost today out = out) ∨
    (("---".data).isPrefixOf (pyLstrip out) = false ∧
      normalizePost today out = frontmatterFor today (parse_title_from_output out) ++ out) := by
  unfold normalizePost normalizeOut
  split
  · next h => exact Or.inr ⟨h, rfl⟩
  · next h => exact Or.inl ⟨by simpa using h, rfl⟩

/-- C2 as amended: the normalized Post begins with the frontmatter
delimiter after stripping leading whitespace, and it is either the original
text passed through unchanged (the text already carried the delimiter after
leading whitespace) or the minimal synthesized frontmatter block prepended
to the original text. -/
theorem normalize_lstrip_dash (today out : PyStr) :
    ("---".data).isPrefixOf (pyLstrip (normalizePost today out)) = true ∧
    (normalizePost today out = out ∨
     normalizePost today out =
       frontmatterFor today (parse_title_from_output out) ++ out) := by
  rcases normalize_branches today out with ⟨h1, h2⟩ | ⟨h1, h2⟩
  · rw [h2]
    exact ⟨h1, Or.inl rfl⟩
  · rw [h2]
    constructor
    · rw [frontmatter_append_head]
      rw [show pyLstrip ('-' :: '-' :: '-' ::
        (("\ntitle: \"".data ++ parse_title_from_output out ++ "\"\ndate: ".data ++ today ++
          "\n---\n\n".data) ++ out)) = '-' :: '-' :: '-' ::
        (("\ntitle: \"".data ++ parse_title_from_output out ++ "\"\ndate: ".data ++ today ++
          "\n---\n\n".data) ++ out) from rfl]
      rfl
    · exact Or.inr rfl

/-- C10: whenever the normalizer prepends frontmatter (the generated text
does not start with "---" after stripping leading whitespace), the Post is
exactly the synthesized block followed by the untouched generated text; and
in every case the generated text is a verbatim suffix of the Post. -/
theorem frontmatter_prepend_exact (today out : PyStr) :
    ((("---".data).isPrefixOf (pyLstrip out)) = false →
      normalizePost today out =
        "---\ntitle: \"".data ++ parse_title_from_output out ++ "\"\ndate: ".data ++
          today ++ "\n---\n\n".data ++ out) ∧
    out <:+ normalizePost today out := by
  constructor
  · intro hb
    rcases normalize_branches today out with ⟨h1, h2⟩ | ⟨h1, h2⟩
    · rw [hb] at h1
      exact absurd h1 (by simp)
    · rw [h2]
      simp [frontmatterFor, List.append_assoc]
  · rcases normalize_branches today out with ⟨h1, h2⟩ | ⟨h1, h2⟩
    · rw [h2]
    · rw [h2]
      exact List.suffix_append _ out

/-- C10 witness at a concrete unprefixed input. -/
theorem frontmatter_prepend_exact_witness :
    normalizePost ("2026-10-12".data) ("# Camp Smart\n\nBody...".data) =
      "---\ntitle: \"".data ++ parse_title_from_output ("# Camp Smart\n\nBody...".data) ++
        "\"\ndate: ".data ++ "2026-10-12".data ++ "\n---\n\n".data ++
        "# Camp Smart\n\nBody...".data ∧
    ("# Camp Smart\n\nBody...".data : PyStr) <:+
      normalizePost ("2026-10-12".data) ("# Camp Smart\n\nBody...".data) :=
  ⟨(frontmatter_prepend_exact ("2026-10-12".data) ("# Camp Smart\n\nBody...".data)).1 (by decide),
   (frontmatter_prepend_exact ("2026-10-12".data) ("# Camp Smart\n\nBody...".data)).2⟩

/-- A dict whose keys all fail the any-test has no lookup result. -/
theorem assocGet_none_of_any_false (fs : List (PyStr × Json)) (k : PyStr)
    (hA : fs.any (fun kv => kv.1 == k) = false) : assocGet fs k = none := by
  unfold assocGet
  rw [Option.map_eq_none']
  rw [List.find?_eq_none]
  exact List.any_eq_false.mp hA

/-- A dict whose keys pass the any-test has a lookup result. -/
theorem assocGet_isSome_of_any_true (fs : List (PyStr × Json)) (k : PyStr)
    (hA : fs.any (fun kv => kv.1 == k) = true) :
    ∃ v, assocGet fs k = some v := by
  cases hfind : List.find? (fun kv => kv.1 == k) fs with
  | none =>
    obtain ⟨kv, hkv, hpk⟩ := List.any_eq_true.mp hA
    exact absurd hpk (List.find?_eq_none.mp hfind kv hkv)
  | some kv =>
    exact ⟨kv.2, by simp [assocGet, hfind]⟩

/-- C1 counterexample: on the empty-list body the code raises an
IndexError (at `data[0]`), while the claimed chain returns the string
representation "[]" of the whole body. -/
theorem hf_resolution_empty_list_cex :
    parse_hf (Json.arr []) = Except.error PyErr.indexError ∧
    claimResolve (Json.arr []) = Except.ok (Json.str ("[]".data)) ∧
    parse_hf (Json.arr []) ≠ claimResolve (Json.arr []) :=
  ⟨rfl, rfl, fun hcontr => Except.noConfusion hcontr⟩

/-- C1 as amended: the code's resolution of the decoded body agrees with
the claimed chain except on the shapes the chain cannot reach without an
exception: an empty list raises an index error; a first element that is
null, a boolean or a number raises a type error; a first element that is a
string containing `generated_text` as a substring, or a list containing
the string `generated_text` as an element, raises a type error. -/
theorem hf_resolution_amended (d : Json) : parse_hf d = amendedResolve d := by
  cases d with
  | null => rfl
  | bool b => rfl
  | num n => rfl
  | str s => rfl
  | obj fs => rfl
  | arr xs =>
    cases xs with
    | nil => rfl
    | cons h t =>
      cases h with
      | null => rfl
      | bool b => rfl
      | num n => rfl
      | str s =>
        cases hs : isSubstring gtKey s with
        | true => simp [parse_hf, amendedResolve, pyIn, hs]
        | false => simp [parse_hf, amendedResolve, pyIn, hs]
      | arr ys =>
        cases hy : ys.any (fun x => jsonEqStr x gtKey) with
        | true => simp [parse_hf, amendedResolve, pyIn, hy]
        | false => simp [parse_hf, amendedResolve, pyIn, hy]
      | obj fs =>
        cases hA : fs.any (fun kv => kv.1 == gtKey) with
        | true =>
          obtain ⟨v, hv⟩ := assocGet_isSome_of_any_true fs gtKey hA
          simp [parse_hf, amendedResolve, pyIn, hA, hv]
        | false =>
          have hg := assocGet_none_of_any_false fs gtKey hA
          simp [parse_hf, amendedResolve, pyIn, hA, hg]

/-- C7: the driver selects Provider A exactly when the lowercased value of
USE_OPENAI (defaulting to "true" when unset) is one of "1", "true", "yes";
an unset variable selects Provider A; and exactly one of the two providers
is selected. -/
theorem provider_flag_selection (e : Env) :
    (chosenProvider e = Provider.A ↔
      ([("1".data : PyStr), "true".data, "yes".data].contains
        (pyLower ((envGet e ("USE_OPENAI".data)).getD ("true".data)))) = true) ∧
    (envGet e ("USE_OPENAI".data) = none → chosenProvider e = Provider.A) ∧
    (chosenProvider e = Provider.A ∨ chosenProvider e = Provider.B) := by
  refine ⟨?_, ?_, ?_⟩
  · unfold chosenProvider use_openai
    cases hb : [("1".data : PyStr), "true".data, "yes".data].contains
        (pyLower ((envGet e ("USE_OPENAI".data)).getD ("true".data))) with
    | true => simp [hb]
    | false => simp [hb]
  · intro h
    unfold chosenProvider use_openai
    rw [h]
    rfl
  · unfold chosenProvider
    cases hu : use_openai e with
    | true => simp
    | false => simp

/-- C7 witness: with an empty environment (USE_OPENAI unset) the driver
selects Provider A. -/
theorem provider_flag_selection_witness : chosenProvider [] = Provider.A :=
  (provider_flag_selection []).2.1 rfl

/-- C3: the slug is the lowercased title with every non-alphanumeric
character replaced by a hyphen, truncated to 60 characters, then stripped
of leading and trailing hyphens; consequently it contains only lowercase
alphanumerics and hyphens, has no leading or trailing hyphen, and has
length at most 60. -/
theorem slug_spec (title : PyStr) :
    slugOf title = pyStripWith isDashChar (((pyLower title).map slugMapChar).take 60) ∧
    (∀ c, c ∈ slugOf title → isSlugChar c = true) ∧
    (∀ c, (slugOf title).head? = some c → c ≠ '-') ∧
    (∀ c, (slugOf title).getLast? = some c → c ≠ '-') ∧
    (slugOf title).length ≤ 60 := by
  refine ⟨rfl, ?_, ?_, ?_, ?_⟩
  · intro c hc
    unfold slugOf at hc
    have h1 := stripWith_subset isDashChar _ hc
    have h2 := List.take_subset 60 _ h1
    rw [List.mem_map] at h2
    obtain ⟨a, ha, hac⟩ := h2
    unfold pyLower at ha
    rw [List.mem_map] at ha
    obtain ⟨b, _, hba⟩ := ha
    rw [← hac, ← hba]
    exact slugMapChar_lower_ok b
  · intro c hc
    unfold slugOf at hc
    have hd := stripWith_head_not isDashChar _ c hc
    unfold isDashChar at hd
    intro hdash
    rw [hdash] at hd
    simp at hd
  · intro c hc
    unfold slugOf at hc
    have hd := stripWith_last_not isDashChar _ c hc
    unfold isDashChar at hd
    intro hdash
    rw [hdash] at hd
    simp at hd
  · unfold slugOf
    refine le_trans (stripWith_length_le _ _) ?_
    rw [List.length_take]
    exact min_le_left _ _

/-- C3 witness at the spec's example title. -/
theorem slug_spec_witness :
    slugOf ("Hello, World! 2024".data) =
      pyStripWith isDashChar ((((pyLower ("Hello, World! 2024".data))).map slugMapChar).take 60) ∧
    isSlugChar 'h' = true ∧
    ('h' : Char) ≠ '-' ∧
    (slugOf ("Hello, World! 2024".data)).length ≤ 60 :=
  ⟨(slug_spec ("Hello, World! 2024".data)).1,
   (slug_spec ("Hello, World! 2024".data)).2.1 'h' (by decide),
   (slug_spec ("Hello, World! 2024".data)).2.2.1 'h' (by decide),
   (slug_spec ("Hello, World! 2024".data)).2.2.2.2⟩

/-- C4: the extracted title is the transform (marker and surrounding
whitespace stripped) of the first line whose stripped form begins with the
heading marker, and the fixed placeholder when no such line exists; checked
also on the spec's two concrete examples. -/
theorem title_extraction_spec :
    (∀ text line, (splitlines text).find? isHeadingLine = some line →
      parse_title_from_output text = stripHeadingMarker line) ∧
    (∀ text, (splitlines text).find? isHeadingLine = none →
      parse_title_from_output text = "Auto Generated Post".data) ∧
    parse_title_from_output ("# My Great Post\n\nBody text.".data) = "My Great Post".data ∧
    parse_title_from_output ("no heading\nanywhere in this text".data) =
      "Auto Generated Post".data := by
  refine ⟨?_, ?_, by decide, by decide⟩
  · intro text line h
    unfold parse_title_from_output
    rw [h]
  · intro text h
    unfold parse_title_from_output
    rw [h]

/-- C4 witness at concrete inputs with and without a heading line. -/
theorem title_extraction_spec_witness :
    parse_title_from_output ("intro\n  ## Two\nrest".data) =
      stripHeadingMarker ("  ## Two".data) ∧
    parse_title_from_output ("plain".data) = "Auto Generated Post".data :=
  ⟨title_extraction_spec.1 ("intro\n  ## Two\nrest".data) ("  ## Two".data) (by decide),
   title_extraction_spec.2.1 ("plain".data) (by decide)⟩

/-- C5: for each provider, an absent credential environment variable makes
the run abort with the configuration error before any network request, and
the run's trace contains neither a network event nor a file write (only the
initial status print). -/
theorem missing_credential_aborts (w : World) (e : Env) :
    (chosenProvider e = Provider.A → envGet e ("OPENAI_API_KEY".data) = none →
      mainRun w e =
        (Except.error (PyErr.runtimeError ("OPENAI_API_KEY not set".data)),
         [Event.printLine ("Generating post for niche: ".data ++ nicheOf e)]) ∧
      (mainRun w e).2.all (fun ev => !isNetEvent ev && !isFileWriteEvent ev) = true) ∧
    (chosenProvider e = Provider.B → envGet e ("HF_INFERENCE_API_TOKEN".data) = none →
      mainRun w e =
        (Except.error (PyErr.runtimeError ("HF_INFERENCE_API_TOKEN not set".data)),
         [Event.printLine ("Generating post for niche: ".data ++ nicheOf e)]) ∧
      (mainRun w e).2.all (fun ev => !isNetEvent ev && !isFileWriteEvent ev) = true) := by
  constructor
  · intro hA hk
    have hmain : mainRun w e =
        (Except.error (PyErr.runtimeError ("OPENAI_API_KEY not set".data)),
         [Event.printLine ("Generating post for niche: ".data ++ nicheOf e)]) := by
      unfold mainRun gen_with_openai
      rw [hA, hk]
      rfl
    refine ⟨hmain, ?_⟩
    rw [hmain]
    rfl
  · intro hB hk
    have hmain : mainRun w e =
        (Except.error (PyErr.runtimeError ("HF_INFERENCE_API_TOKEN not set".data)),
         [Event.printLine ("Generating post for niche: ".data ++ nicheOf e)]) := by
      unfold mainRun gen_with_hf asPyStr
      rw [hB, hk]
      rfl
    refine ⟨hmain, ?_⟩
    rw [hmain]
    rfl

/-- C5 witness: a run with USE_OPENAI unset and no OPENAI_API_KEY aborts
with the Provider A configuration error; a run with USE_OPENAI set to "no"
and no HF_INFERENCE_API_TOKEN aborts with the Provider B one. -/
theorem missing_credential_aborts_witness :
    mainRun (World.mk [] [] 200 Json.null ("2026-10-12".data)) [] =
      (Except.error (PyErr.runtimeError ("OPENAI_API_KEY not set".data)),
       [Event.printLine ("Generating post for niche: ".data ++ nicheOf [])]) ∧
    mainRun (World.mk [] [] 200 Json.null ("2026-10-12".data))
        [(("USE_OPENAI".data : PyStr), "no".data)] =
      (Except.error (PyErr.runtimeError ("HF_INFERENCE_API_TOKEN not set".data)),
       [Event.printLine ("Generating post for niche: ".data ++
          nicheOf [(("USE_OPENAI".data : PyStr), "no".data)])]) :=
  ⟨((missing_credential_aborts (World.mk [] [] 200 Json.null ("2026-10-12".data)) []).1
      rfl rfl).1,
   ((missing_credential_aborts (World.mk [] [] 200 Json.null ("2026-10-12".data))
      [(("USE_OPENAI".data : PyStr), "no".data)]).2 rfl rfl).1⟩

/-- C6: with the credential present, Provider A's generator issues the
catalog listing followed by a single-turn chat request whose model is the
smaller identifier exactly when it appears in the catalog (the larger
default otherwise), with temperature 7/10 and token ceiling 800, and
returns the whitespace-trimmed first choice. -/
theorem openai_request_spec (w : World) (e : Env) (prompt k : PyStr)
    (hk : envGet e ("OPENAI_API_KEY".data) = some k) (hne : k ≠ [])
    (c : PyStr) (rest : List PyStr) (hc : w.chatChoices = c :: rest) :
    gen_with_openai w e prompt =
      (Except.ok (pyStrip c),
       [Event.netModelList,
        Event.netChatCreate
          (ChatRequest.mk (requestModelOf w) [(("user".data : PyStr), prompt)] (7 / 10) 800)]) ∧
    (requestModelOf w = "gpt-4o-mini".data ↔ ("gpt-4o-mini".data : PyStr) ∈ w.catalog) ∧
    (("gpt-4o-mini".data : PyStr) ∉ w.catalog → requestModelOf w = "gpt-4o".data) := by
  have hcm : (w.catalog.contains ("gpt-4o-mini".data) = true) ↔
      ("gpt-4o-mini".data : PyStr) ∈ w.catalog := by
    constructor
    · intro h
      exact List.elem_iff.mp h
    · intro h
      exact List.elem_iff.mpr h
  refine ⟨?_, ?_, ?_⟩
  · unfold gen_with_openai
    rw [hk]
    cases k with
    | nil => exact absurd rfl hne
    | cons a as =>
      rw [hc]
      rfl
  · unfold requestModelOf
    cases hb : w.catalog.contains ("gpt-4o-mini".data) with
    | true =>
      rw [if_pos rfl]
      exact iff_of_true rfl (hcm.mp hb)
    | false =>
      rw [if_neg (by simp)]
      refine iff_of_false (by decide) ?_
      intro hmem
      have hct := hcm.mpr hmem
      rw [hb] at hct
      exact Bool.noConfusion hct
  · intro hnm
    unfold requestModelOf
    cases hb : w.catalog.contains ("gpt-4o-mini".data) with
    | true => exact absurd (hcm.mp hb) hnm
    | false => rw [if_neg (by simp)]

/-- C6 witness: concrete catalog containing the smaller model, one chat
choice with surrounding whitespace, credential present. -/
theorem openai_request_spec_witness :
    gen_with_openai
        (World.mk [("gpt-4o-mini".data)] [("  hi  ".data)] 200 Json.null ("2026-10-12".data))
        [(("OPENAI_API_KEY".data : PyStr), "sk-test".data)] ("p".data) =
      (Except.ok (pyStrip ("  hi  ".data)),
       [Event.netModelList,
        Event.netChatCreate
          (ChatRequest.mk
            (requestModelOf
              (World.mk [("gpt-4o-mini".data)] [("  hi  ".data)] 200 Json.null
                ("2026-10-12".data)))
            [(("user".data : PyStr), "p".data)] (7 / 10) 800)]) :=
  (openai_request_spec
    (World.mk [("gpt-4o-mini".data)] [("  hi  ".data)] 200 Json.null ("2026-10-12".data))
    [(("OPENAI_API_KEY".data : PyStr), "sk-test".data)] ("p".data) ("sk-test".data)
    rfl (by decide) ("  hi  ".data) [] rfl).1
